import Mathlib

set_option autoImplicit false

/-!
Verification of libtorrent's page-aligned allocator (src/allocator.cpp).

The development is a shallow embedding of the three entry points of the file:

* `page_size` (allocator.cpp, lines 78-98): the process-wide cached page size.
  It is modelled as a pure state transformer: the static local `s` becomes an
  explicit cache argument (0 before the first call, as in the source), and the
  platform query (`GetSystemInfo` / `B_PAGE_SIZE` / `sysconf(_SC_PAGESIZE)` /
  the simulator constant) becomes an environment argument `q : Int`, since the
  query result is outside the program.  The function returns the value handed
  back to the caller together with the new cache contents.

* `page_aligned_allocator.malloc` (lines 100-156): the `TORRENT_DEBUG_BUFFERS`
  build flag becomes an explicit `dbg : Bool` argument; the build-selected
  aligned-allocation primitive becomes an oracle `alloc : Nat → Option Nat`
  mapping a request size to the raw address it returns (`none` on failure);
  `print_backtrace` writing into `h->stack` becomes an opaque trace token.
  The result records everything the function does: the address returned to
  the caller, the raw allocation address, the header contents written, the
  two pages whose protection is set to read-only, and the number of bytes
  requested from the primitive.  Addresses and sizes are `Nat`: the asserted
  range `0 < bytes < 0x30000000` keeps every quantity in the source
  non-negative and far below any integer-overflow boundary, so `Nat`
  arithmetic is a faithful model of the C++ `int` / `size_type` arithmetic.

* `page_aligned_allocator.free` (lines 158-199) and
  `page_aligned_allocator.in_use` (lines 202-207): `free` likewise returns a
  record of its effects; the `alloc_header` that the source reads through the
  pointer `block - page` is passed in explicitly as the contents of that page.

The per-platform capacity expression of lines 116-129 (in particular the BeOS
`create_area` call on lines 124-125) is modelled by `primitive_request_size`.
-/

namespace LibtorrentAllocator

/-- Shallow embedding of `page_size()` (allocator.cpp lines 78-98).
`s` is the cached static local (0 before the first call), `q` the value the
platform query reports.  Mirrors: `if (s != 0) return s;` then `s = <query>`,
then `if (s <= 0) s = 4096;`.  Returns `(value returned, new cache)`. -/
def page_size (s q : Int) : Int × Int :=
  if s ≠ 0 then (s, s)
  else
    let s1 := if q ≤ 0 then 4096 else q
    (s1, s1)

/-- Shallow embedding of `struct alloc_header` (lines 66-71): `size` is the
`std::int64_t` requested size (always positive where written, so `Nat`),
`magic` the `int` liveness tag, and `stack` stands for the contents of the
`char stack[3072]` trace buffer, abstracted to an opaque token. -/
structure alloc_header where
  size : Nat
  magic : Nat
  stack : Nat
deriving DecidableEq

/-- The entry assertions of `page_aligned_allocator::malloc` (lines 102-107):
`TORRENT_ASSERT(bytes > 0)`, `TORRENT_ASSERT(bytes < 0x30000000)` and
`TORRENT_ASSERT(int(bytes) >= page_size())` (the `int` cast is
value-preserving for every `bytes` below the `0x30000000` ceiling). -/
def malloc_asserts (page bytes : Nat) : Bool :=
  decide (0 < bytes) && decide (bytes < 0x30000000) && decide (page ≤ bytes)

/-- The build-time selection among the aligned-allocation primitives of
lines 116-129: `posix_memalign`, `memalign`, `_aligned_malloc` (Windows),
`create_area` (BeOS) and `valloc`. -/
inductive Platform where
  | posixMemalign
  | memalign
  | windows
  | beos
  | valloc
deriving DecidableEq

/-- Capacity in bytes handed to the build-selected primitive (lines 116-129).
Every path passes `bytes` through, except the BeOS path (line 125), which
computes `(bytes + page_size() - 1) & (page_size() - 1)`. -/
def primitive_request_size (p : Platform) (page bytes : Nat) : Nat :=
  match p with
  | Platform.beos => (bytes + page - 1) &&& (page - 1)
  | _ => bytes

/-- Alignment the call site asks of the primitive: `page_size()` on the
`posix_memalign`, `memalign` and `_aligned_malloc` paths (lines 117-122); on
the `create_area` and `valloc` paths page alignment is inherent in the
primitive itself. -/
def primitive_request_alignment (p : Platform) (page : Nat) : Nat :=
  match p with
  | _ => page

/-- Everything a successful `page_aligned_allocator::malloc` does, as data:
`addr` is the address returned to the caller, `raw` the address the primitive
returned, `header` the `alloc_header` written at `raw` (`none` outside
diagnostic mode), `protect_head`/`protect_tail` the start addresses of the
pages made read-only by the two `mprotect` calls (lines 143-144; `none`
outside diagnostic mode), and `requested` the byte count passed on to the
primitive. -/
structure malloc_result where
  addr : Nat
  raw : Nat
  header : Option alloc_header
  protect_head : Option Nat
  protect_tail : Option Nat
  requested : Nat
deriving DecidableEq

/-- Shallow embedding of `page_aligned_allocator::malloc` (lines 100-156).
`dbg` is the `TORRENT_DEBUG_BUFFERS` build flag; `page` is `page_size()`;
`alloc` is the build-selected primitive, returning the raw address or `none`;
`trace` is the token `print_backtrace` writes into `h->stack`.  In diagnostic
mode the source computes `num_pages = (bytes + (page - 1)) / page + 2`,
saves `orig_bytes = bytes`, sets `bytes = num_pages * page`, allocates, fills
the header with `{size = orig_bytes, magic = 0x1337, stack = backtrace}`,
protects the first and last pages, and returns `ret + page`; otherwise it
allocates `bytes` and returns the raw address. -/
def page_aligned_allocator.malloc :
    Bool → Nat → Nat → (Nat → Option Nat) → Nat → Option malloc_result
  | true, page, bytes, alloc, trace =>
    let num_pages := (bytes + (page - 1)) / page + 2
    let orig_bytes := bytes
    match alloc (num_pages * page) with
    | none => none
    | some ret =>
      some { addr := ret + page
           , raw := ret
           , header := some { size := orig_bytes, magic := 0x1337, stack := trace }
           , protect_head := some ret
           , protect_tail := some (ret + (num_pages - 1) * page)
           , requested := num_pages * page }
  | false, _, bytes, alloc, _ =>
    match alloc bytes with
    | none => none
    | some ret =>
      some { addr := ret
           , raw := ret
           , header := none
           , protect_head := none
           , protect_tail := none
           , requested := bytes }

/-- Everything `page_aligned_allocator::free` does, as data: `assert_ok` is
whether the `TORRENT_ASSERT(h->magic == 0x1337)` of line 174 held (`true`
when the assertion is not reached at all), `header` the contents of the
header page after the call, `unprotect_head`/`unprotect_tail` the start
addresses of the pages restored to read-write (lines 171 and 175), and
`released` the address handed to the underlying deallocation primitive. -/
structure free_result where
  assert_ok : Bool
  header : alloc_header
  unprotect_head : Option Nat
  unprotect_tail : Option Nat
  released : Option Nat
deriving DecidableEq

/-- Shallow embedding of `page_aligned_allocator::free` (lines 158-199).
`block` is the argument pointer (`none` for `nullptr`); `h` is the contents
of the page at `block - page` (the `alloc_header` the source reads through a
cast); `trace` is the token the free-time `print_backtrace` writes.  The
source returns immediately on `nullptr` (line 160); in diagnostic mode it
un-protects the header page, recomputes
`num_pages = (h->size + (page - 1)) / page + 2` from the stored size, asserts
`h->magic == 0x1337`, un-protects the trailing guard page at
`block + (num_pages - 2) * page`, clears `h->magic` to 0, rewrites the trace
buffer, and releases `block - page`; outside diagnostic mode it releases
`block` itself and never touches a header. -/
def page_aligned_allocator.free :
    Bool → Nat → Option Nat → alloc_header → Nat → free_result
  | _, _, none, h, _ =>
    { assert_ok := true, header := h, unprotect_head := none
    , unprotect_tail := none, released := none }
  | true, page, some b, h, trace =>
    let num_pages := (h.size + (page - 1)) / page + 2
    { assert_ok := h.magic == 0x1337
    , header := { size := h.size, magic := 0, stack := trace }
    , unprotect_head := some (b - page)
    , unprotect_tail := some (b + (num_pages - 2) * page)
    , released := some (b - page) }
  | false, _, some b, h, _ =>
    { assert_ok := true, header := h, unprotect_head := none
    , unprotect_tail := none, released := some b }

/-- Shallow embedding of `page_aligned_allocator::in_use` (lines 202-207):
reads the `alloc_header` at `block - page_size()` — passed here as `h` — and
returns whether its `magic` field equals 0x1337.  It is a pure read: the
embedding is a plain function of the header contents. -/
def page_aligned_allocator.in_use (h : alloc_header) : Bool :=
  h.magic == 0x1337

/-- Unfolding lemma for the diagnostic-mode branch of `malloc`: it succeeds
exactly when the primitive does, and the result is determined by the raw
address the primitive returns. -/
theorem malloc_debug_eq_some (page bytes trace : Nat) (alloc : Nat → Option Nat)
    (r : malloc_result) :
    page_aligned_allocator.malloc true page bytes alloc trace = some r ↔
    ∃ ret, alloc (((bytes + (page - 1)) / page + 2) * page) = some ret ∧
      r = { addr := ret + page
          , raw := ret
          , header := some { size := bytes, magic := 0x1337, stack := trace }
          , protect_head := some ret
          , protect_tail := some (ret + ((bytes + (page - 1)) / page + 2 - 1) * page)
          , requested := ((bytes + (page - 1)) / page + 2) * page } := by
  unfold page_aligned_allocator.malloc
  cases hc : alloc (((bytes + (page - 1)) / page + 2) * page) with
  | none => simp [hc]
  | some ret =>
    simp only [hc]
    constructor
    · intro h
      exact ⟨ret, rfl, (Option.some_inj.mp h).symm⟩
    · rintro ⟨ret', h1, h2⟩
      obtain rfl : ret = ret' := by simpa using h1
      rw [h2]

/-- A concrete primitive for witnesses: always hands back the page-aligned
address 8192, regardless of the requested size. -/
def alloc8192 : Nat → Option Nat := fun _ => some 8192

/-- The concrete diagnostic-mode result of `malloc true 4096 4096 alloc8192 0`:
3 pages (12288 bytes) are requested, the raw block sits at 8192, the caller
receives 12288, and the pages at 8192 and 16384 are protected. -/
def r0 : malloc_result :=
  { addr := 12288
  , raw := 8192
  , header := some { size := 4096, magic := 0x1337, stack := 0 }
  , protect_head := some 8192
  , protect_tail := some 16384
  , requested := 12288 }

/-- C7: `page_aligned_allocator::malloc` asserts exactly the stated caller
contract on entry (lines 102-107): the request is positive, strictly below
the sanity ceiling 0x30000000, and at least the page size; the assertions
pass if and only if all three conditions hold, so a request violating any of
them trips an assertion in checked builds. -/
theorem malloc_asserts_exact_contract (page bytes : Nat) :
    malloc_asserts page bytes = true ↔
      0 < bytes ∧ bytes < 0x30000000 ∧ page ≤ bytes := by
  simp [malloc_asserts, and_assoc]

/-- Witness for C7 at a concrete input: the assertions hold for a one-page
request at page size 4096. -/
theorem malloc_asserts_exact_contract_witness :
    malloc_asserts 4096 4096 = true ↔
      0 < 4096 ∧ 4096 < 0x30000000 ∧ 4096 ≤ 4096 :=
  malloc_asserts_exact_contract 4096 4096

/-- C9: `free(nullptr)` is a no-op in both production and diagnostic mode
(line 160 precedes all diagnostic code): the header page is untouched, no
page protection is changed, nothing is released, and no assertion is
reached. -/
theorem free_null_is_noop (dbg : Bool) (page trace : Nat) (h : alloc_header) :
    page_aligned_allocator.free dbg page none h trace =
      { assert_ok := true, header := h, unprotect_head := none
      , unprotect_tail := none, released := none } := by
  cases dbg <;> rfl

/-- Witness for C9 at a concrete input: freeing a null block in diagnostic
mode at page size 4096 leaves an arbitrary live header untouched. -/
theorem free_null_is_noop_witness :
    page_aligned_allocator.free true 4096 none
        { size := 4096, magic := 0x1337, stack := 0 } 5 =
      { assert_ok := true
      , header := { size := 4096, magic := 0x1337, stack := 0 }
      , unprotect_head := none, unprotect_tail := none, released := none } :=
  free_null_is_noop true 4096 5 { size := 4096, magic := 0x1337, stack := 0 }

/-- C1: whenever `page_aligned_allocator::malloc` succeeds — in production or
diagnostic mode — and the build-selected primitive only produces
page-aligned addresses, the address returned to the caller is a multiple of
the page size; in diagnostic mode it is the raw page-aligned allocation
offset by exactly one page (line 152). -/
theorem malloc_returns_page_aligned (dbg : Bool) (page bytes trace : Nat)
    (alloc : Nat → Option Nat) (r : malloc_result)
    (halign : ∀ n a, alloc n = some a → a % page = 0)
    (hm : page_aligned_allocator.malloc dbg page bytes alloc trace = some r) :
    r.addr % page = 0 ∧ (dbg = true → r.addr = r.raw + page) := by
  cases dbg with
  | true =>
    rw [malloc_debug_eq_some] at hm
    obtain ⟨ret, hret, rfl⟩ := hm
    refine ⟨?_, fun _ => rfl⟩
    have h0 := halign _ _ hret
    simpa [Nat.add_mod_right] using h0
  | false =>
    simp only [page_aligned_allocator.malloc] at hm
    cases hc : alloc bytes with
    | none => rw [hc] at hm; simp at hm
    | some ret =>
      rw [hc] at hm
      obtain rfl := Option.some_inj.mp hm
      exact ⟨halign _ _ hc, fun h => nomatch h⟩

/-- Witness for C1: diagnostic-mode `malloc 4096 4096` through a primitive
pinned at address 8192 returns 12288, which is page-aligned and exactly one
page past the raw allocation. -/
theorem malloc_returns_page_aligned_witness :
    r0.addr % 4096 = 0 ∧ (true = true → r0.addr = r0.raw + 4096) :=
  malloc_returns_page_aligned true 4096 4096 0 alloc8192 r0
    (fun n a h => by
      obtain rfl : (8192 : Nat) = a := Option.some_inj.mp h
      decide)
    rfl

/-- C2: in diagnostic mode a successful `malloc` requests exactly
`num_pages * page` bytes from the underlying allocator, where
`num_pages - 2` is the ceiling of `bytes / page` — the least page count
covering the request — and the 2 extra pages are the leading header/guard
page and the trailing guard page (lines 108-113). -/
theorem malloc_debug_reserves_ceil_plus_two (page bytes trace : Nat)
    (alloc : Nat → Option Nat) (r : malloc_result)
    (hpage : 0 < page)
    (hm : page_aligned_allocator.malloc true page bytes alloc trace = some r) :
    ∃ num_pages, r.requested = num_pages * page ∧
      bytes ≤ (num_pages - 2) * page ∧
      (∀ m : Nat, bytes ≤ m * page → num_pages - 2 ≤ m) := by
  rw [malloc_debug_eq_some] at hm
  obtain ⟨ret, hret, rfl⟩ := hm
  refine ⟨(bytes + (page - 1)) / page + 2, rfl, ?_, ?_⟩ <;>
    rw [Nat.add_sub_cancel] <;>
    rw [show (bytes + (page - 1)) / page = bytes ⌈/⌉ page by
      rw [Nat.ceilDiv_eq_add_pred_div]; congr 1; omega]
  · have h1 := le_smul_ceilDiv hpage (b := bytes)
    simpa [smul_eq_mul, Nat.mul_comm] using h1
  · intro m hmle
    exact (ceilDiv_le_iff_le_mul hpage).mpr (by rwa [Nat.mul_comm] at hmle)

/-- Witness for C2: diagnostic-mode `malloc 4096 4096` requests exactly
12288 bytes — 3 pages of 4096: one header page, one data page and one
trailing guard page. -/
theorem malloc_debug_reserves_ceil_plus_two_witness :
    r0.requested = 12288 ∧
      ∃ num_pages, r0.requested = num_pages * 4096 ∧
        4096 ≤ (num_pages - 2) * 4096 ∧
        (∀ m : Nat, 4096 ≤ m * 4096 → num_pages - 2 ≤ m) :=
  ⟨rfl, malloc_debug_reserves_ceil_plus_two 4096 4096 0 alloc8192 r0
    (by decide) rfl⟩

/-- The header diagnostic-mode `malloc true 4096 4096 alloc8192 0` writes at
the raw address: the requested size, the live magic value and the
allocation-time trace token. -/
def hd0 : alloc_header := { size := 4096, magic := 0x1337, stack := 0 }

/-- C3: in diagnostic mode, for a block produced by a successful `malloc`,
the first `free` passes the liveness assertion of line 174 and clears the
header magic from 0x1337 to 0 (line 177); a second `free` of the same block
then finds magic = 0 and fails the same assertion. -/
theorem double_free_trips_assert (page bytes t0 t1 t2 : Nat)
    (alloc : Nat → Option Nat) (r : malloc_result) (hd : alloc_header)
    (hm : page_aligned_allocator.malloc true page bytes alloc t0 = some r)
    (hh : r.header = some hd) :
    hd.magic = 0x1337 ∧
    (page_aligned_allocator.free true page (some r.addr) hd t1).assert_ok = true ∧
    (page_aligned_allocator.free true page (some r.addr) hd t1).header.magic = 0 ∧
    (page_aligned_allocator.free true page (some r.addr)
      ((page_aligned_allocator.free true page (some r.addr) hd t1).header)
      t2).assert_ok = false := by
  rw [malloc_debug_eq_some] at hm
  obtain ⟨ret, hret, rfl⟩ := hm
  obtain rfl : ({ size := bytes, magic := 0x1337, stack := t0 } : alloc_header) = hd := by
    simpa using hh
  refine ⟨rfl, ?_, ?_, ?_⟩ <;> simp [page_aligned_allocator.free]

/-- Witness for C3 at the concrete allocation `r0`: the first `free` passes
its assertion and zeroes the magic tag, the second one fails it. -/
theorem double_free_trips_assert_witness :
    hd0.magic = 0x1337 ∧
    (page_aligned_allocator.free true 4096 (some r0.addr) hd0 1).assert_ok = true ∧
    (page_aligned_allocator.free true 4096 (some r0.addr) hd0 1).header.magic = 0 ∧
    (page_aligned_allocator.free true 4096 (some r0.addr)
      ((page_aligned_allocator.free true 4096 (some r0.addr) hd0 1).header)
      2).assert_ok = false :=
  double_free_trips_assert 4096 4096 0 1 2 alloc8192 r0 hd0 rfl rfl

/-- C4: `in_use` is a pure read of the header's liveness tag: it returns
true for the header a successful diagnostic-mode `malloc` writes — and hence
at every point between `malloc` and the matching `free`, since in the model
only `free` mutates the header — and false for the header state `free`
leaves behind. -/
theorem in_use_between_malloc_and_free (page bytes t0 t1 : Nat)
    (alloc : Nat → Option Nat) (r : malloc_result) (hd : alloc_header)
    (hm : page_aligned_allocator.malloc true page bytes alloc t0 = some r)
    (hh : r.header = some hd) :
    page_aligned_allocator.in_use hd = true ∧
    page_aligned_allocator.in_use
      ((page_aligned_allocator.free true page (some r.addr) hd t1).header) = false := by
  rw [malloc_debug_eq_some] at hm
  obtain ⟨ret, hret, rfl⟩ := hm
  obtain rfl : ({ size := bytes, magic := 0x1337, stack := t0 } : alloc_header) = hd := by
    simpa using hh
  exact ⟨rfl, by simp [page_aligned_allocator.free, page_aligned_allocator.in_use]⟩

/-- Witness for C4 at the concrete allocation `r0`: `in_use` answers true on
the freshly written header and false right after `free`. -/
theorem in_use_between_malloc_and_free_witness :
    page_aligned_allocator.in_use hd0 = true ∧
    page_aligned_allocator.in_use
      ((page_aligned_allocator.free true 4096 (some r0.addr) hd0 1).header) = false :=
  in_use_between_malloc_and_free 4096 4096 0 1 alloc8192 r0 hd0 rfl rfl

/-- C10: diagnostic-mode `free` leaves the header's `size` field unchanged
(it only clears `magic` and rewrites the trace buffer), so the page count it
recomputes from the stored size equals the allocation-time page count, the
trailing guard page it restores to read-write (line 175) is exactly the page
`malloc` protected (line 144), and the address it un-protects and releases
is the original raw allocation. -/
theorem free_preserves_size_and_matches_guards (page bytes t0 t1 : Nat)
    (alloc : Nat → Option Nat) (r : malloc_result) (hd : alloc_header)
    (hm : page_aligned_allocator.malloc true page bytes alloc t0 = some r)
    (hh : r.header = some hd) :
    (page_aligned_allocator.free true page (some r.addr) hd t1).header.size = hd.size ∧
    hd.size = bytes ∧
    (hd.size + (page - 1)) / page + 2 = (bytes + (page - 1)) / page + 2 ∧
    (page_aligned_allocator.free true page (some r.addr) hd t1).unprotect_tail
      = r.protect_tail ∧
    (page_aligned_allocator.free true page (some r.addr) hd t1).unprotect_head
      = some r.raw ∧
    (page_aligned_allocator.free true page (some r.addr) hd t1).released
      = some r.raw := by
  rw [malloc_debug_eq_some] at hm
  obtain ⟨ret, hret, rfl⟩ := hm
  obtain rfl : ({ size := bytes, magic := 0x1337, stack := t0 } : alloc_header) = hd := by
    simpa using hh
  simp only [page_aligned_allocator.free]
  refine ⟨trivial, trivial, trivial, ?_, ?_, ?_⟩
  · congr 1
    generalize (bytes + (page - 1)) / page = q
    rw [Nat.add_sub_cancel, show q + 2 - 1 = q + 1 from rfl]
    ring
  · congr 1
    omega
  · congr 1
    omega

/-- Witness for C10 at the concrete allocation `r0`: the size field
survives `free`, the recomputed page count matches, and both guard addresses
line up with the allocation-time ones. -/
theorem free_preserves_size_and_matches_guards_witness :
    (page_aligned_allocator.free true 4096 (some r0.addr) hd0 1).header.size = hd0.size ∧
    hd0.size = 4096 ∧
    (hd0.size + (4096 - 1)) / 4096 + 2 = (4096 + (4096 - 1)) / 4096 + 2 ∧
    (page_aligned_allocator.free true 4096 (some r0.addr) hd0 1).unprotect_tail
      = r0.protect_tail ∧
    (page_aligned_allocator.free true 4096 (some r0.addr) hd0 1).unprotect_head
      = some r0.raw ∧
    (page_aligned_allocator.free true 4096 (some r0.addr) hd0 1).released
      = some r0.raw :=
  free_preserves_size_and_matches_guards 4096 4096 0 1 alloc8192 r0 hd0 rfl rfl

/-- On a first call (cache still 0), `page_size` stores and returns the
queried value, substituting 4096 when the query result is non-positive. -/
theorem page_size_first_call (q : Int) :
    page_size 0 q =
      (if q ≤ 0 then 4096 else q, if q ≤ 0 then 4096 else q) := by
  simp [page_size]

/-- Once the cache is non-zero, `page_size` returns it unchanged and ignores
the platform query. -/
theorem page_size_cached (s q : Int) (h : s ≠ 0) : page_size s q = (s, s) := by
  simp [page_size, h]

/-- C5 counterexample: with the platform query reporting a page size of 3,
the first call returns 3 — the reported value is passed through with no
rounding — and 3 is not a power of two, contradicting the claim that the
value is always a power of two. -/
theorem page_size_not_power_of_two_counterexample :
    (page_size 0 3).1 = 3 ∧ ∀ k : Nat, (page_size 0 3).1 ≠ 2 ^ k := by
  have h1 : (page_size 0 3).1 = 3 := by
    rw [page_size_first_call]
    norm_num
  refine ⟨h1, fun k hk => ?_⟩
  rw [h1] at hk
  cases k with
  | zero => norm_num at hk
  | succ n =>
    have h2 : (2:Int) ∣ 2 ^ (n + 1) := dvd_pow_self 2 (Nat.succ_ne_zero n)
    rw [← hk] at h2
    norm_num at h2

/-- C5 (amended): `page_size` returns the same value on every call within a
process — the first call caches it and every later call returns the cache —
and that value equals the platform's reported value whenever that is
positive (hence is not less than it, and is a power of two exactly when the
platform reports one) and is the 4096 default otherwise. -/
theorem page_size_same_value_and_passthrough (q q' : Int) :
    (page_size (page_size 0 q).2 q').1 = (page_size 0 q).1 ∧
    (0 < q → (page_size 0 q).1 = q) ∧
    (q ≤ 0 → (page_size 0 q).1 = 4096) ∧
    q ≤ (page_size 0 q).1 ∧
    (∀ k : Nat, q = 2 ^ k → (page_size 0 q).1 = 2 ^ k) := by
  rw [page_size_first_call]
  by_cases hq : q ≤ 0
  · rw [if_pos hq]
    rw [page_size_cached _ q' (by norm_num)]
    refine ⟨rfl, fun h0 => absurd hq (by omega), fun _ => rfl, by omega,
      fun k hk => ?_⟩
    exfalso
    have h2 := pow_pos (show (0:Int) < 2 by norm_num) k
    rw [← hk] at h2
    omega
  · rw [if_neg hq]
    rw [page_size_cached _ q' (by omega)]
    exact ⟨rfl, fun _ => rfl, fun h0 => absurd h0 hq, by omega, fun k hk => hk⟩

/-- Witness for the amended C5 at a concrete input: a platform report of
4096 = 2 ^ 12 is cached, returned again on the second call, and passed
through as a power of two. -/
theorem page_size_same_value_and_passthrough_witness :
    (page_size (page_size 0 4096).2 7).1 = (page_size 0 4096).1 ∧
    ((0:Int) < 4096 → (page_size 0 4096).1 = 4096) ∧
    ((4096:Int) ≤ 0 → (page_size 0 4096).1 = 4096) ∧
    (4096:Int) ≤ (page_size 0 4096).1 ∧
    (∀ k : Nat, (4096:Int) = 2 ^ k → (page_size 0 4096).1 = 2 ^ k) :=
  page_size_same_value_and_passthrough 4096 7

/-- C6: `page_size` never fails and always returns a positive value: on a
first call, if the platform query fails or reports a non-positive value
(modelled as `q ≤ 0`, covering `sysconf`'s -1 failure return) the result is
the fixed 4096 default, otherwise the positive reported value; either way
the cache is left positive, so later calls stay positive too. -/
theorem page_size_positive_with_default (q : Int) :
    0 < (page_size 0 q).1 ∧
    (q ≤ 0 → (page_size 0 q).1 = 4096) ∧
    0 < (page_size 0 q).2 := by
  rw [page_size_first_call]
  by_cases hq : q ≤ 0
  · simp [hq]
  · simp [hq]
    omega

/-- Witness for C6 at a concrete input: a failed query reported as -1 yields
the 4096 default. -/
theorem page_size_positive_with_default_witness :
    0 < (page_size 0 (-1)).1 ∧
    ((-1:Int) ≤ 0 → (page_size 0 (-1)).1 = 4096) ∧
    0 < (page_size 0 (-1)).2 :=
  page_size_positive_with_default (-1)

/-- C8 (the code deviates on the BeOS path): every platform path passes the
(possibly guard-adjusted) byte count through to the build-selected primitive
unchanged except BeOS, whose `create_area` call (line 125) computes
`(bytes + page_size() - 1) & (page_size() - 1)` — the remainder of the
rounded request modulo the page size, an off-by-one for the intended
round-up mask `~(page_size() - 1)`.  At page size 4096 and request 4096 the
BeOS path asks the primitive for 4095 bytes instead of 4096. -/
theorem beos_request_size_is_remainder :
    primitive_request_size Platform.beos 4096 4096 = 4095 ∧
    primitive_request_size Platform.posixMemalign 4096 4096 = 4096 ∧
    primitive_request_size Platform.memalign 4096 4096 = 4096 ∧
    primitive_request_size Platform.windows 4096 4096 = 4096 ∧
    primitive_request_size Platform.valloc 4096 4096 = 4096 ∧
    primitive_request_alignment Platform.beos 4096 = 4096 := by
  refine ⟨?_, rfl, rfl, rfl, rfl, rfl⟩
  decide

end LibtorrentAllocator
